import Mathlib

/-!
Shallow embedding of the digital-wallet transaction engine
(`src/transactions/transactions.service.ts` of the carteira_digital back end).

Wallets store a balance; the service exposes `deposit`, `transfer`,
`reverseTransaction`, `getHistory` and `getBalance`.  The Prisma store is
modelled as an explicit `DB` state (lists of users, wallets and transactions
plus a clock and an id counter); every Prisma call of the service is mirrored
by a named lookup/update function, and the `$transaction` blocks become
`Except`-valued state transformers: an `Except.error` result means the atomic
unit aborted and the pre-state is kept unchanged.

Monetary values are modelled as exact rationals (`ℚ`), matching the
DECIMAL(10,2) columns of the schema.  Thrown `HttpException`s become the
`Err` constructors (`notFound`, `badRequest`, `forbidden`); a JavaScript
runtime `TypeError` (null dereference) is `Err.typeError`, and a Prisma
"record not found" failure of `update` is `Err.dbError`.
-/

namespace CarteiraDigital

/-- Transaction types of the Prisma enum `TransactionType`. -/
inductive TxType where
  | DEPOSIT
  | TRANSFER
  | REVERSAL
deriving DecidableEq

/-- Transaction statuses of the Prisma enum `TransactionStatus`. -/
inductive TxStatus where
  | PENDING
  | COMPLETED
  | REVERSED
  | FAILED
deriving DecidableEq

/-- Row of the `users` table (the fields the transaction engine reads). -/
structure User where
  id : String
  cpf : String
  name : String
deriving DecidableEq

/-- Row of the `wallets` table. -/
structure Wallet where
  id : String
  userId : String
  balance : ℚ
deriving DecidableEq

/-- Row of the `transactions` table. -/
structure Transaction where
  id : String
  type : TxType
  amount : ℚ
  status : TxStatus
  description : String
  fromWalletId : Option String
  toWalletId : Option String
  reversedTransactionId : Option String
  createdAt : ℕ
  processedAt : Option ℕ
deriving DecidableEq

/-- Database state: the three tables, the wall clock used for timestamps and
a counter for generated transaction ids. -/
structure DB where
  users : List User
  wallets : List Wallet
  transactions : List Transaction
  now : ℕ
  nextId : ℕ
deriving DecidableEq

/-- Error kinds the service can signal.  `notFound`, `badRequest` and
`forbidden` model the NestJS exceptions thrown by the service; `typeError`
models a JavaScript runtime TypeError (property access on `null`);
`dbError` models a Prisma update on a missing record. -/
inductive Err where
  | notFound (msg : String)
  | badRequest (msg : String)
  | forbidden (msg : String)
  | typeError (msg : String)
  | dbError (msg : String)
deriving DecidableEq

/-- Model of `tx.wallet.findUnique(\x7b where: \x7b userId \x7d \x7d)`. -/
def findWalletByUserId (db : DB) (userId : String) : Option Wallet :=
  db.wallets.find? (fun w => w.userId == userId)

/-- Model of `tx.wallet.findUnique(\x7b where: \x7b id \x7d \x7d)`. -/
def findWalletById (db : DB) (walletId : String) : Option Wallet :=
  db.wallets.find? (fun w => w.id == walletId)

/-- Model of `prisma.user.findUnique(\x7b where: \x7b id \x7d \x7d)`. -/
def findUserById (db : DB) (userId : String) : Option User :=
  db.users.find? (fun u => u.id == userId)

/-- Model of `prisma.user.findUnique(\x7b where: \x7b cpf \x7d \x7d)`. -/
def findUserByCpf (db : DB) (cpf : String) : Option User :=
  db.users.find? (fun u => u.cpf == cpf)

/-- Model of `prisma.transaction.findUnique(\x7b where: \x7b id \x7d \x7d)`. -/
def findTransactionById (db : DB) (transactionId : String) : Option Transaction :=
  db.transactions.find? (fun t => t.id == transactionId)

/-- Pure part of a wallet-balance update: rewrite the balance of the wallet
with the given id through `f`, leaving all other fields and rows intact. -/
def mapWalletBalance (db : DB) (walletId : String) (f : ℚ → ℚ) : DB :=
  { db with
    wallets := db.wallets.map
      (fun w => if w.id == walletId then { w with balance := f w.balance } else w) }

/-- Model of `tx.wallet.update(\x7b where: \x7b id \x7d, data: \x7b balance \x7d \x7d)`
(both the plain set and the `increment`/`decrement` forms, via `f`).
Prisma's `update` throws when no record matches the `where`, modelled as
`Err.dbError`. -/
def updateWalletBalance (db : DB) (walletId : String) (f : ℚ → ℚ) : Except Err DB :=
  match findWalletById db walletId with
  | none => .error (.dbError "Record to update not found")
  | some _ => .ok (mapWalletBalance db walletId f)

/-- Pure part of a transaction-status update. -/
def mapTransactionStatus (db : DB) (transactionId : String) (s : TxStatus) : DB :=
  { db with
    transactions := db.transactions.map
      (fun t => if t.id == transactionId then { t with status := s } else t) }

/-- Model of `tx.transaction.update(\x7b where: \x7b id \x7d, data: \x7b status \x7d \x7d)`. -/
def updateTransactionStatus (db : DB) (transactionId : String) (s : TxStatus) :
    Except Err DB :=
  match findTransactionById db transactionId with
  | none => .error (.dbError "Record to update not found")
  | some _ => .ok (mapTransactionStatus db transactionId s)

/-- Fields the service passes to `tx.transaction.create`. -/
structure NewTx where
  type : TxType
  amount : ℚ
  status : TxStatus
  description : String
  fromWalletId : Option String
  toWalletId : Option String
  reversedTransactionId : Option String
  processedAt : Option ℕ

/-- Model of `tx.transaction.create`: the store fills in the generated id and
the `createdAt` timestamp and appends the row. -/
def createTransaction (db : DB) (d : NewTx) : DB × Transaction :=
  let t : Transaction :=
    { id := "tx-" ++ toString db.nextId
      type := d.type
      amount := d.amount
      status := d.status
      description := d.description
      fromWalletId := d.fromWalletId
      toWalletId := d.toWalletId
      reversedTransactionId := d.reversedTransactionId
      createdAt := db.now
      processedAt := d.processedAt }
  ({ db with transactions := db.transactions ++ [t], nextId := db.nextId + 1 }, t)

/-- Rendering of `number.toFixed(2)` for the values the service prints
(its balances are exact 2-decimal values, for which `toFixed(2)` is exact
half-up rounding). -/
def toFixed2 (q : ℚ) : String :=
  let n : ℤ := round (q * 100)
  let sign := if n < 0 then "-" else ""
  let a := n.natAbs
  let frac := a % 100
  sign ++ toString (a / 100) ++ "." ++
    (if frac < 10 then "0" ++ toString frac else toString frac)

/-- Result shape of `TransactionsService.deposit`. -/
structure DepositResult where
  transaction : Transaction
  amount : ℚ
  newBalance : ℚ
  previousBalance : ℚ
deriving DecidableEq

/-- Embedding of `TransactionsService.deposit` (transactions.service.ts):
find the actor's wallet (NotFound when absent), add the amount to the
balance, persist it, and append a COMPLETED DEPOSIT transaction whose
destination is the actor's wallet.  Note: the source computes the stored
balance and the reported `previousBalance`/`newBalance` as IEEE-754 doubles
(`wallet.balance.toNumber() + amount`); this model idealizes them as exact
rationals, and the divergence of the float source from that ideal at
2-decimal inputs is what the exactness analyses below record. -/
def deposit (userId : String) (amount : ℚ) (description : Option String)
    (db : DB) : Except Err (DB × DepositResult) :=
  match findWalletByUserId db userId with
  | none => .error (.notFound "Carteira não encontrada")
  | some wallet =>
    let previousBalance := wallet.balance
    let newBalance := previousBalance + amount
    match updateWalletBalance db wallet.id (fun _ => newBalance) with
    | .error e => .error e
    | .ok db1 =>
      let created := createTransaction db1
        { type := TxType.DEPOSIT
          amount := amount
          status := TxStatus.COMPLETED
          description := description.getD "Depósito"
          fromWalletId := none
          toWalletId := some wallet.id
          reversedTransactionId := none
          processedAt := some db.now }
      .ok (created.1,
        { transaction := created.2
          amount := created.2.amount
          newBalance := newBalance
          previousBalance := previousBalance })

/-- Result shape of `TransactionsService.transfer`. -/
structure TransferResult where
  transaction : Transaction
  amount : ℚ
  newBalance : ℚ
  previousBalance : ℚ
  recipientId : String
  recipientName : String
deriving DecidableEq

/-- Model of `recipientCpf.replace(/[^\d]/g, "")`: keep only digit
characters. -/
def cleanCpfStr (s : String) : String :=
  String.mk (s.data.filter Char.isDigit)

/-- Embedding of the `prisma.$transaction` callback of
`TransactionsService.transfer` (its atomic unit): re-fetch the sender's
wallet (NotFound when absent) and the recipient's wallet (note: the source
performs no null check on the recipient's wallet here), validate the
sender's balance, debit the sender, credit the recipient — dereferencing
`toWallet.id`, which raises a runtime TypeError when the recipient's wallet
was absent — and append a COMPLETED TRANSFER transaction. -/
def transferTx (userId : String) (toUser : User) (amount : ℚ)
    (description : Option String) (db : DB) : Except Err (DB × TransferResult) :=
  match findWalletByUserId db userId with
  | none => .error (.notFound "Carteira não encontrada")
  | some fromWallet =>
    let toWalletOpt := findWalletByUserId db toUser.id
    let currentBalance := fromWallet.balance
    if currentBalance < amount then
      .error (.badRequest
        ("Saldo insuficiente. Disponível: R$ " ++ toFixed2 currentBalance))
    else
      let previousBalance := currentBalance
      let newBalance := currentBalance - amount
      match updateWalletBalance db fromWallet.id (fun _ => newBalance) with
      | .error e => .error e
      | .ok db1 =>
        match toWalletOpt with
        | none => .error (.typeError "Cannot read properties of null (reading id)")
        | some toWallet =>
          match updateWalletBalance db1 toWallet.id (fun b => b + amount) with
          | .error e => .error e
          | .ok db2 =>
            let created := createTransaction db2
              { type := TxType.TRANSFER
                amount := amount
                status := TxStatus.COMPLETED
                description := description.getD "Transferência"
                fromWalletId := some fromWallet.id
                toWalletId := some toWallet.id
                reversedTransactionId := none
                processedAt := some db.now }
            .ok (created.1,
              { transaction := created.2
                amount := created.2.amount
                newBalance := newBalance
                previousBalance := previousBalance
                recipientId := toUser.id
                recipientName := toUser.name })

/-- Embedding of `TransactionsService.transfer`: pre-checks outside the
atomic unit (sender exists, no self-transfer by CPF, recipient user with a
wallet exists), then the atomic unit `transferTx`. -/
def transfer (userId : String) (recipientCpf : String) (amount : ℚ)
    (description : Option String) (db : DB) : Except Err (DB × TransferResult) :=
  let cleanCpf := cleanCpfStr recipientCpf
  match findUserById db userId with
  | none => .error (.notFound "Usuário remetente não encontrado")
  | some fromUser =>
    if fromUser.cpf == cleanCpf then
      .error (.badRequest "Não é possível transferir para si mesmo")
    else
      match findUserByCpf db cleanCpf with
      | none => .error (.notFound "Destinatário não encontrado")
      | some toUser =>
        match findWalletByUserId db toUser.id with
        | none => .error (.notFound "Destinatário não encontrado")
        | some _ => transferTx userId toUser amount description db

/-- Result shape of `TransactionsService.reverseTransaction`. -/
structure ReversalResult where
  message : String
  reversalTransaction : Transaction
  newBalance : ℚ
deriving DecidableEq

/-- Ownership check of `reverseTransaction`: the actor owns the included
destination wallet or the included source wallet
(`transaction.toWallet?.user.id === userId || transaction.fromWallet?.user.id === userId`;
the included wallet's `user.id` is the wallet's `userId` foreign key). -/
def reversalIsOwner (db : DB) (txn : Transaction) (userId : String) : Bool :=
  ((txn.toWalletId.bind (findWalletById db)).any fun w => w.userId == userId) ||
  ((txn.fromWalletId.bind (findWalletById db)).any fun w => w.userId == userId)

/-- Balance mutations of the reversal's atomic unit, branched on the
original transaction's type: a DEPOSIT is reversed by decrementing its
destination wallet (no sufficiency check); a TRANSFER is reversed by
checking the destination wallet's balance covers the amount, then
incrementing the source and decrementing the destination. -/
def reverseBalances (txn : Transaction) (amount : ℚ) (db : DB) : Except Err DB :=
  if txn.type = TxType.DEPOSIT then
    match txn.toWalletId with
    | none => .error (.badRequest
        "Transação de depósito inválida: toWalletId não encontrado")
    | some twid => updateWalletBalance db twid (fun b => b - amount)
  else if txn.type = TxType.TRANSFER then
    match txn.fromWalletId, txn.toWalletId with
    | some fwid, some twid =>
      match findWalletById db twid with
      | none => .error (.notFound "Carteira do destinatário não encontrada")
      | some toWallet =>
        if toWallet.balance < amount then
          .error (.badRequest "Destinatário não tem saldo suficiente para reversão")
        else
          match updateWalletBalance db fwid (fun b => b + amount) with
          | .error e => .error e
          | .ok dbA => updateWalletBalance dbA twid (fun b => b - amount)
    | _, _ => .error (.badRequest
        "Transação de transferência inválida: wallet IDs não encontrados")
  else .ok db

/-- Embedding of `TransactionsService.reverseTransaction`: load the target
transaction with its wallet owners (NotFound when absent); require the actor
to own the source or destination wallet (Forbidden); reject an already
REVERSED transaction and a REVERSAL-type transaction (BadRequest); then, in
the atomic unit, apply `reverseBalances`, mark the original REVERSED, create
a linked COMPLETED REVERSAL transaction and return the acting user's own
wallet balance. -/
def reverseTransaction (userId : String) (transactionId : String) (db : DB) :
    Except Err (DB × ReversalResult) :=
  match findTransactionById db transactionId with
  | none => .error (.notFound "Transação não encontrada")
  | some txn =>
    if !(reversalIsOwner db txn userId) then
      .error (.forbidden "Você não tem permissão para reverter esta transação")
    else if txn.status = TxStatus.REVERSED then
      .error (.badRequest "Esta transação já foi revertida")
    else if txn.type = TxType.REVERSAL then
      .error (.badRequest "Reversões não podem ser revertidas")
    else
      let amount := txn.amount
      match reverseBalances txn amount db with
      | .error e => .error e
      | .ok db2 =>
        match updateTransactionStatus db2 transactionId TxStatus.REVERSED with
        | .error e => .error e
        | .ok db3 =>
          let reversalFromWalletId :=
            if txn.type = TxType.DEPOSIT then none else txn.toWalletId
          let reversalToWalletId :=
            if txn.type = TxType.DEPOSIT then txn.toWalletId else txn.fromWalletId
          match reversalToWalletId with
          | none => .error (.badRequest
              "Não é possível criar reversão: wallet de destino não encontrado")
          | some rto =>
            let created := createTransaction db3
              { type := TxType.REVERSAL
                amount := txn.amount
                status := TxStatus.COMPLETED
                description := "Estorno: " ++ txn.description
                fromWalletId := reversalFromWalletId
                toWalletId := some rto
                reversedTransactionId := some txn.id
                processedAt := some db.now }
            match findWalletByUserId created.1 userId with
            | none => .error (.notFound "Carteira não encontrada após reversão")
            | some updatedWallet =>
              .ok (created.1,
                { message := "Transação revertida com sucesso"
                  reversalTransaction := created.2
                  newBalance := updatedWallet.balance })

/-- Counterparty shape of a history entry (the `otherParty` object; its
fields mirror the optional chaining `wallet?.user?.id` / `wallet?.user?.name`). -/
structure OtherParty where
  id : Option String
  name : Option String
deriving DecidableEq

/-- Shape of one formatted `getHistory` entry. -/
structure HistoryEntry where
  id : String
  type : TxType
  amount : ℚ
  status : TxStatus
  description : String
  createdAt : ℕ
  processedAt : Option ℕ
  direction : String
  otherParty : Option OtherParty
deriving DecidableEq

/-- The `findMany` filter of `getHistory`: the wallet is the transaction's
source or destination. -/
def txInvolvesWallet (walletId : String) (t : Transaction) : Bool :=
  t.fromWalletId == some walletId || t.toWalletId == some walletId

/-- The user owning the wallet referenced by an optional wallet id
(models the `include: \x7b user: true \x7d` navigation with optional chaining). -/
def walletOwner (db : DB) (walletIdOpt : Option String) : Option User :=
  (walletIdOpt.bind (findWalletById db)).bind (fun w => findUserById db w.userId)

/-- Formats one transaction row exactly as `getHistory`'s `map` does:
`direction` is "received" when the queried wallet is the destination, else
"sent"; `otherParty` is built only for TRANSFER rows, from the wallet on the
side that is not the queried wallet. -/
def formatHistoryEntry (db : DB) (walletId : String) (t : Transaction) :
    HistoryEntry :=
  { id := t.id
    type := t.type
    amount := t.amount
    status := t.status
    description := t.description
    createdAt := t.createdAt
    processedAt := t.processedAt
    direction := if t.toWalletId == some walletId then "received" else "sent"
    otherParty :=
      if t.type = TxType.TRANSFER then
        let u :=
          if t.toWalletId == some walletId then walletOwner db t.fromWalletId
          else walletOwner db t.toWalletId
        some { id := u.map (fun x => x.id), name := u.map (fun x => x.name) }
      else none }

/-- Embedding of `TransactionsService.getHistory`: resolve the actor's
wallet (NotFound when absent), fetch the transactions where it is source or
destination ordered by `createdAt` descending (the `orderBy` of `findMany`,
modelled by a merge sort), and format each row. -/
def getHistory (userId : String) (db : DB) : Except Err (List HistoryEntry) :=
  match findWalletByUserId db userId with
  | none => .error (.notFound "Carteira não encontrada")
  | some wallet =>
    let txs := db.transactions.filter (txInvolvesWallet wallet.id)
    let sorted := txs.mergeSort (fun a b => decide (b.createdAt ≤ a.createdAt))
    .ok (sorted.map (formatHistoryEntry db wallet.id))

/-- Embedding of `TransactionsService.getBalance`. -/
def getBalance (userId : String) (db : DB) : Except Err (ℚ × String) :=
  match findWalletByUserId db userId with
  | none => .error (.notFound "Carteira não encontrada")
  | some wallet => .ok (wallet.balance, wallet.id)

/-! ### Concrete states used by witnesses and counterexamples -/

/-- State for the transfer witness: Alice (wallet `w1`, balance 200) and
Bob (wallet `w2`, balance 120). -/
def dbTransferW : DB :=
  { users := [{ id := "u1", cpf := "52998224725", name := "Alice" },
              { id := "u2", cpf := "15350946056", name := "Bob" }]
    wallets := [{ id := "w1", userId := "u1", balance := 200 },
                { id := "w2", userId := "u2", balance := 120 }]
    transactions := []
    now := 3
    nextId := 5 }

/-- State for the reversal witnesses: Alice transferred 50 to Bob (already
applied to the balances: w1 = 130, w2 = 80), recorded as COMPLETED `t1`. -/
def dbRevTransferW : DB :=
  { users := [{ id := "u1", cpf := "52998224725", name := "Alice" },
              { id := "u2", cpf := "15350946056", name := "Bob" }]
    wallets := [{ id := "w1", userId := "u1", balance := 130 },
                { id := "w2", userId := "u2", balance := 80 }]
    transactions := [{ id := "t1", type := TxType.TRANSFER, amount := 50,
                       status := TxStatus.COMPLETED, description := "Transferência",
                       fromWalletId := some "w1", toWalletId := some "w2",
                       reversedTransactionId := none, createdAt := 1,
                       processedAt := some 1 }]
    now := 9
    nextId := 2 }

/-- State for the deposit-reversal witness: Alice's wallet holds 50 but her
recorded COMPLETED deposit `t1` was 100.5, so reversing it must overdraw. -/
def dbRevDepositW : DB :=
  { users := [{ id := "u1", cpf := "52998224725", name := "Alice" }]
    wallets := [{ id := "w1", userId := "u1", balance := 50 }]
    transactions := [{ id := "t1", type := TxType.DEPOSIT, amount := 100.5,
                       status := TxStatus.COMPLETED, description := "Depósito",
                       fromWalletId := none, toWalletId := some "w1",
                       reversedTransactionId := none, createdAt := 1,
                       processedAt := some 1 }]
    now := 9
    nextId := 2 }

/-- State for the reversal-guard claims: `t1` is a TRANSFER already REVERSED,
`t2` is the COMPLETED REVERSAL that undid it.  `u3` owns neither wallet. -/
def dbGuardCX : DB :=
  { users := [{ id := "u1", cpf := "52998224725", name := "Alice" },
              { id := "u2", cpf := "15350946056", name := "Bob" },
              { id := "u3", cpf := "11144477735", name := "Eve" }]
    wallets := [{ id := "w1", userId := "u1", balance := 100 },
                { id := "w2", userId := "u2", balance := 100 }]
    transactions := [{ id := "t1", type := TxType.TRANSFER, amount := 10,
                       status := TxStatus.REVERSED, description := "Transferência",
                       fromWalletId := some "w1", toWalletId := some "w2",
                       reversedTransactionId := none, createdAt := 1,
                       processedAt := some 1 },
                     { id := "t2", type := TxType.REVERSAL, amount := 10,
                       status := TxStatus.COMPLETED, description := "Estorno: Transferência",
                       fromWalletId := some "w2", toWalletId := some "w1",
                       reversedTransactionId := some "t1", createdAt := 2,
                       processedAt := some 2 }]
    now := 9
    nextId := 3 }

/-- State for the missing-recipient-wallet claim: only Alice's wallet exists;
the recipient user `u2` has no wallet row. -/
def dbNoRecipientW : DB :=
  { users := [{ id := "u1", cpf := "52998224725", name := "Alice" },
              { id := "u2", cpf := "15350946056", name := "Bob" }]
    wallets := [{ id := "w1", userId := "u1", balance := 100 }]
    transactions := []
    now := 4
    nextId := 0 }

/-- State for the history witness: deposits, transfers and a reversal hitting
Alice's wallet `w1`, inserted out of timestamp order. -/
def dbHistW : DB :=
  { users := [{ id := "u1", cpf := "52998224725", name := "Alice" },
              { id := "u2", cpf := "15350946056", name := "Bob" }]
    wallets := [{ id := "w1", userId := "u1", balance := 130 },
                { id := "w2", userId := "u2", balance := 80 }]
    transactions := [{ id := "t1", type := TxType.DEPOSIT, amount := 100,
                       status := TxStatus.COMPLETED, description := "Depósito",
                       fromWalletId := none, toWalletId := some "w1",
                       reversedTransactionId := none, createdAt := 1,
                       processedAt := some 1 },
                     { id := "t3", type := TxType.TRANSFER, amount := 20,
                       status := TxStatus.COMPLETED, description := "Transferência",
                       fromWalletId := some "w2", toWalletId := some "w1",
                       reversedTransactionId := none, createdAt := 3,
                       processedAt := some 3 },
                     { id := "t2", type := TxType.TRANSFER, amount := 50,
                       status := TxStatus.COMPLETED, description := "Transferência",
                       fromWalletId := some "w1", toWalletId := some "w2",
                       reversedTransactionId := none, createdAt := 2,
                       processedAt := some 2 },
                     { id := "t4", type := TxType.REVERSAL, amount := 100,
                       status := TxStatus.COMPLETED, description := "Estorno: Depósito",
                       fromWalletId := none, toWalletId := some "w1",
                       reversedTransactionId := some "t1", createdAt := 4,
                       processedAt := some 4 }]
    now := 9
    nextId := 5 }

/-- State for the non-COMPLETED reversal witness: a PENDING deposit `t1` and
a FAILED transfer `t2`. -/
def dbPendW : DB :=
  { users := [{ id := "u1", cpf := "52998224725", name := "Alice" },
              { id := "u2", cpf := "15350946056", name := "Bob" }]
    wallets := [{ id := "w1", userId := "u1", balance := 80 },
                { id := "w2", userId := "u2", balance := 60 }]
    transactions := [{ id := "t1", type := TxType.DEPOSIT, amount := 30,
                       status := TxStatus.PENDING, description := "Depósito",
                       fromWalletId := none, toWalletId := some "w1",
                       reversedTransactionId := none, createdAt := 1,
                       processedAt := none },
                     { id := "t2", type := TxType.TRANSFER, amount := 10,
                       status := TxStatus.FAILED, description := "Transferência",
                       fromWalletId := some "w1", toWalletId := some "w2",
                       reversedTransactionId := none, createdAt := 2,
                       processedAt := none }]
    now := 9
    nextId := 3 }

/-- State for the exact-decimal analyses: a wallet holding the 2-decimal
value 0.10. -/
def dbDecimalW : DB :=
  { users := [{ id := "u1", cpf := "52998224725", name := "Alice" }]
    wallets := [{ id := "w1", userId := "u1", balance := 0.1 }]
    transactions := []
    now := 1
    nextId := 0 }

/-! ### Store lemmas: how lookups interact with updates -/

/-- Balance updates keep every non-balance field, so user-id lookups commute
with `mapWalletBalance`. -/
theorem findWalletByUserId_mapWalletBalance (db : DB) (wid : String) (f : ℚ → ℚ)
    (uid : String) :
    findWalletByUserId (mapWalletBalance db wid f) uid =
      (findWalletByUserId db uid).map
        (fun w => if w.id == wid then { w with balance := f w.balance } else w) := by
  unfold findWalletByUserId mapWalletBalance
  rw [List.find?_map]
  congr 1
  congr 1
  funext w
  simp only [Function.comp]
  cases hw : w.id == wid <;> simp [hw]

/-- Balance updates keep the wallet id, so id lookups commute with
`mapWalletBalance`. -/
theorem findWalletById_mapWalletBalance (db : DB) (wid : String) (f : ℚ → ℚ)
    (qid : String) :
    findWalletById (mapWalletBalance db wid f) qid =
      (findWalletById db qid).map
        (fun w => if w.id == wid then { w with balance := f w.balance } else w) := by
  unfold findWalletById mapWalletBalance
  rw [List.find?_map]
  congr 1
  congr 1
  funext w
  simp only [Function.comp]
  cases hw : w.id == wid <;> simp [hw]

/-- Status updates keep the transaction id, so id lookups commute with
`mapTransactionStatus`. -/
theorem findTransactionById_mapTransactionStatus (db : DB) (tid : String)
    (s : TxStatus) (qid : String) :
    findTransactionById (mapTransactionStatus db tid s) qid =
      (findTransactionById db qid).map
        (fun t => if t.id == tid then { t with status := s } else t) := by
  unfold findTransactionById mapTransactionStatus
  rw [List.find?_map]
  congr 1
  congr 1
  funext t
  simp only [Function.comp]
  cases ht : t.id == tid <;> simp [ht]

/-- Wallet-balance updates do not touch the transactions table. -/
theorem findTransactionById_mapWalletBalance (db : DB) (wid : String) (f : ℚ → ℚ)
    (qid : String) :
    findTransactionById (mapWalletBalance db wid f) qid = findTransactionById db qid :=
  rfl

/-- Transaction-status updates do not touch the wallets table. -/
theorem findWalletByUserId_mapTransactionStatus (db : DB) (tid : String)
    (s : TxStatus) (uid : String) :
    findWalletByUserId (mapTransactionStatus db tid s) uid = findWalletByUserId db uid :=
  rfl

/-- Transaction-status updates do not touch the wallets table (id lookup). -/
theorem findWalletById_mapTransactionStatus (db : DB) (tid : String)
    (s : TxStatus) (qid : String) :
    findWalletById (mapTransactionStatus db tid s) qid = findWalletById db qid :=
  rfl

/-- Creating a transaction does not touch the wallets table. -/
theorem findWalletByUserId_createTransaction (db : DB) (d : NewTx) (uid : String) :
    findWalletByUserId (createTransaction db d).1 uid = findWalletByUserId db uid :=
  rfl

/-- Creating a transaction does not touch the wallets table (id lookup). -/
theorem findWalletById_createTransaction (db : DB) (d : NewTx) (qid : String) :
    findWalletById (createTransaction db d).1 qid = findWalletById db qid :=
  rfl

/-- A transaction found before an append is still the one found after it. -/
theorem findTransactionById_createTransaction_of_found {db : DB} {qid : String}
    {t : Transaction} (d : NewTx) (h : findTransactionById db qid = some t) :
    findTransactionById (createTransaction db d).1 qid = some t := by
  unfold findTransactionById at h ⊢
  unfold createTransaction
  simp only [List.find?_append, h]
  rfl

/-- The created transaction row is in the post-state's table. -/
theorem createTransaction_mem (db : DB) (d : NewTx) :
    (createTransaction db d).2 ∈ (createTransaction db d).1.transactions := by
  simp [createTransaction]

/-- A wallet-balance update succeeds when some row carries the target id. -/
theorem updateWalletBalance_eq_ok {db : DB} {w : Wallet} {wid : String} (f : ℚ → ℚ)
    (hmem : w ∈ db.wallets) (hid : w.id = wid) :
    updateWalletBalance db wid f = .ok (mapWalletBalance db wid f) := by
  unfold updateWalletBalance findWalletById
  have hs : (db.wallets.find? (fun x => x.id == wid)).isSome := by
    rw [List.find?_isSome]
    exact ⟨w, hmem, by simp [hid]⟩
  obtain ⟨w', hw'⟩ := Option.isSome_iff_exists.mp hs
  rw [hw']

/-- A transaction-status update succeeds when the row is present. -/
theorem updateTransactionStatus_eq_ok {db : DB} {tid : String} {t : Transaction}
    (s : TxStatus) (h : findTransactionById db tid = some t) :
    updateTransactionStatus db tid s = .ok (mapTransactionStatus db tid s) := by
  unfold updateTransactionStatus
  rw [h]

/-- A wallet found by user id has that user id. -/
theorem userId_of_findWalletByUserId {db : DB} {uid : String} {w : Wallet}
    (h : findWalletByUserId db uid = some w) : w.userId = uid := by
  have := List.find?_some h
  simpa using this

/-- A wallet found by wallet id has that id. -/
theorem id_of_findWalletById {db : DB} {wid : String} {w : Wallet}
    (h : findWalletById db wid = some w) : w.id = wid := by
  have := List.find?_some h
  simpa using this

/-- A transaction found by id has that id. -/
theorem id_of_findTransactionById {db : DB} {tid : String} {t : Transaction}
    (h : findTransactionById db tid = some t) : t.id = tid := by
  have := List.find?_some h
  simpa using this

/-- A wallet found by user id is a row of the table. -/
theorem mem_of_findWalletByUserId {db : DB} {uid : String} {w : Wallet}
    (h : findWalletByUserId db uid = some w) : w ∈ db.wallets :=
  List.mem_of_find?_eq_some h

/-- A wallet found by wallet id is a row of the table. -/
theorem mem_of_findWalletById {db : DB} {wid : String} {w : Wallet}
    (h : findWalletById db wid = some w) : w ∈ db.wallets :=
  List.mem_of_find?_eq_some h

/-! ### Claim theorems -/

/-- C2.  The claim requires the deposit result to report previousBalance = B
and newBalance = B + A exactly.  At the failing input B = 0.10, A = 0.20 the
exact-decimal contract demands a reported previousBalance of exactly 1/10
and newBalance of exactly 3/10, as evaluated here on the exact-rational
embedding; but 1/10 is not a dyadic rational — no m / 2^e, hence no IEEE-754
double, equals it — so the source's `wallet.balance.toNumber()` conversion
is already lossy and its reported double sum `previousBalance + amount`
(0.30000000000000004) cannot equal B + A.  The code therefore violates the
claim's report-exactness clause on the same float arithmetic recorded for
the exactness claim below. -/
theorem deposit_report_requires_nondyadic :
    (∃ db' res, deposit "u1" (0.2 : ℚ) none dbDecimalW = .ok (db', res) ∧
      res.previousBalance = (1 / 10 : ℚ) ∧
      res.newBalance = (1 / 10 : ℚ) + (2 / 10 : ℚ) ∧
      res.transaction.type = TxType.DEPOSIT ∧
      res.transaction.status = TxStatus.COMPLETED ∧
      res.transaction.toWalletId = some "w1") ∧
    ¬ ∃ (m : ℤ) (e : ℕ), (1 / 10 : ℚ) = (m : ℚ) / 2 ^ e := by
  constructor
  · refine ⟨_, _, rfl, ?_, ?_, rfl, rfl, rfl⟩ <;>
      norm_num [deposit, updateWalletBalance, findWalletByUserId, findWalletById,
        dbDecimalW]
  · rintro ⟨m, e, h⟩
    have h2 : ((2 : ℚ) ^ e) ≠ 0 := by positivity
    have h' : (1 : ℚ) * 2 ^ e = m * 10 := by
      field_simp at h
      linarith
    have h'' : (1 : ℤ) * 2 ^ e = m * 10 := by exact_mod_cast h'
    have h5 : (5 : ℤ) ∣ 2 ^ e := ⟨2 * m, by linarith⟩
    have hp : Prime (5 : ℤ) := by norm_num
    have h52 := hp.dvd_of_dvd_pow h5
    omega

/-- C1.  For every successful transfer of amount A > 0 from a sender wallet
with balance B1 to a distinct recipient wallet with balance B2, the post-state
is sender balance B1 - A and recipient balance B2 + A, and a COMPLETED
TRANSFER transaction with that source, destination and amount is recorded;
if B1 < A the operation fails InsufficientFunds (a BadRequest whose message
carries the available balance B1) and, the atomic unit aborting on the error,
neither wallet's balance changes. -/
theorem transfer_conservation (db : DB) (uid rcpf : String) (amount : ℚ)
    (d : Option String) (fromUser toUser : User) (fromW toW : Wallet)
    (hA : 0 < amount)
    (hfu : findUserById db uid = some fromUser)
    (hcpf : ¬ fromUser.cpf = cleanCpfStr rcpf)
    (htu : findUserByCpf db (cleanCpfStr rcpf) = some toUser)
    (hfw : findWalletByUserId db uid = some fromW)
    (htw : findWalletByUserId db toUser.id = some toW)
    (hne : ¬ fromW.id = toW.id) :
    (fromW.balance < amount →
      transfer uid rcpf amount d db = .error (.badRequest
        ("Saldo insuficiente. Disponível: R$ " ++ toFixed2 fromW.balance))) ∧
    (amount ≤ fromW.balance →
      ∃ db' res, transfer uid rcpf amount d db = .ok (db', res) ∧
        findWalletByUserId db' uid = some { fromW with balance := fromW.balance - amount } ∧
        findWalletByUserId db' toUser.id = some { toW with balance := toW.balance + amount } ∧
        res.previousBalance = fromW.balance ∧
        res.newBalance = fromW.balance - amount ∧
        res.recipientId = toUser.id ∧
        res.recipientName = toUser.name ∧
        res.transaction.type = TxType.TRANSFER ∧
        res.transaction.status = TxStatus.COMPLETED ∧
        res.transaction.fromWalletId = some fromW.id ∧
        res.transaction.toWalletId = some toW.id ∧
        res.transaction.amount = amount ∧
        res.transaction ∈ db'.transactions) := by
  have htr : transfer uid rcpf amount d db = transferTx uid toUser amount d db := by
    simp only [transfer, hfu, htu, htw, beq_iff_eq, hcpf, ite_false, if_false]
  have hne2 : (fromW.id == toW.id) = false := beq_eq_false_iff_ne.mpr hne
  have hgne : (toW.id == fromW.id) = false := beq_eq_false_iff_ne.mpr (Ne.symm hne)
  constructor
  · intro hlt
    rw [htr]
    simp only [transferTx, hfw]
    rw [if_pos hlt]
  · intro hge
    have hlt' : ¬ fromW.balance < amount := not_lt.mpr hge
    have hupd1 := updateWalletBalance_eq_ok
      (fun _ => fromW.balance - amount) (mem_of_findWalletByUserId hfw) rfl
    have hmem2 : toW ∈ (mapWalletBalance db fromW.id (fun _ => fromW.balance - amount)).wallets := by
      have h0 := List.mem_map_of_mem
        (fun w : Wallet => if w.id == fromW.id then { w with balance := fromW.balance - amount } else w)
        (mem_of_findWalletByUserId htw)
      simpa [mapWalletBalance, hgne] using h0
    have hupd2 := updateWalletBalance_eq_ok
      (fun b => b + amount) hmem2 rfl
    let hc := createTransaction
      (mapWalletBalance (mapWalletBalance db fromW.id (fun _ => fromW.balance - amount))
        toW.id (fun b => b + amount))
      { type := TxType.TRANSFER
        amount := amount
        status := TxStatus.COMPLETED
        description := d.getD "Transferência"
        fromWalletId := some fromW.id
        toWalletId := some toW.id
        reversedTransactionId := none
        processedAt := some db.now }
    refine ⟨hc.1,
      { transaction := hc.2
        amount := hc.2.amount
        newBalance := fromW.balance - amount
        previousBalance := fromW.balance
        recipientId := toUser.id
        recipientName := toUser.name },
      ?_, ?_, ?_, rfl, rfl, rfl, rfl, rfl, rfl, rfl, rfl, rfl, ?_⟩
    · rw [htr]
      simp only [transferTx, hfw, htw, hlt', ite_false, if_false, hupd1, hupd2]
    · rw [findWalletByUserId_createTransaction, findWalletByUserId_mapWalletBalance,
        findWalletByUserId_mapWalletBalance, hfw]
      simp [hne2, hne]
    · rw [findWalletByUserId_createTransaction, findWalletByUserId_mapWalletBalance,
        findWalletByUserId_mapWalletBalance, htw]
      simp [hgne, Ne.symm hne]
    · exact createTransaction_mem _ _

/-- C1 witness: Alice transfers 50 to Bob (CPF given formatted) on
`dbTransferW`; balances go 200 → 150 and 120 → 170. -/
theorem transfer_conservation_witness :
    ∃ db' res, transfer "u1" "153.509.460-56" 50 none dbTransferW = .ok (db', res) ∧
      findWalletByUserId db' "u1" =
        some { id := "w1", userId := "u1", balance := (200 : ℚ) - 50 } ∧
      findWalletByUserId db' "u2" =
        some { id := "w2", userId := "u2", balance := (120 : ℚ) + 50 } ∧
      res.previousBalance = (200 : ℚ) ∧
      res.newBalance = (200 : ℚ) - 50 ∧
      res.recipientId = "u2" ∧
      res.recipientName = "Bob" ∧
      res.transaction.type = TxType.TRANSFER ∧
      res.transaction.status = TxStatus.COMPLETED ∧
      res.transaction.fromWalletId = some "w1" ∧
      res.transaction.toWalletId = some "w2" ∧
      res.transaction.amount = 50 ∧
      res.transaction ∈ db'.transactions :=
  (transfer_conservation dbTransferW "u1" "153.509.460-56" 50 none
    { id := "u1", cpf := "52998224725", name := "Alice" }
    { id := "u2", cpf := "15350946056", name := "Bob" }
    { id := "w1", userId := "u1", balance := 200 }
    { id := "w2", userId := "u2", balance := 120 }
    (by norm_num) (by rfl) (by decide) (by rfl) (by rfl) (by rfl)
    (by decide)).2 (by norm_num)

/-- A wallet whose id differs from the updated one is still a row after a
balance update. -/
theorem mem_mapWalletBalance_of_ne {db : DB} {w : Wallet} {wid : String} (f : ℚ → ℚ)
    (hmem : w ∈ db.wallets) (hne : (w.id == wid) = false) :
    w ∈ (mapWalletBalance db wid f).wallets := by
  have h0 := List.mem_map_of_mem
    (fun x : Wallet => if x.id == wid then { x with balance := f x.balance } else x) hmem
  simpa [mapWalletBalance, hne] using h0

/-- One side of the ownership check: a true `Option.any` over an included
wallet yields a wallet row owned by the actor. -/
theorem exists_wallet_of_any_side {db : DB} {uid : String} (o : Option String)
    (ho : ((o.bind (findWalletById db)).any fun w => w.userId == uid) = true) :
    ∃ w, w ∈ db.wallets ∧ (w.userId == uid) = true := by
  cases o with
  | none => simp [Option.any] at ho
  | some wid =>
    have ho' : ((findWalletById db wid).any fun w => w.userId == uid) = true := ho
    cases hf : findWalletById db wid with
    | none => rw [hf] at ho'; simp [Option.any] at ho'
    | some w =>
      rw [hf] at ho'
      exact ⟨w, mem_of_findWalletById hf, ho'⟩

/-- An actor passing the reversal ownership check has a wallet row, so the
final own-wallet lookup of `reverseTransaction` succeeds. -/
theorem exists_wallet_of_reversalIsOwner {db : DB} {txn : Transaction} {uid : String}
    (h : reversalIsOwner db txn uid = true) :
    ∃ w0, findWalletByUserId db uid = some w0 := by
  have hex : ∃ w, w ∈ db.wallets ∧ (w.userId == uid) = true := by
    unfold reversalIsOwner at h
    rw [Bool.or_eq_true] at h
    cases h with
    | inl h1 => exact exists_wallet_of_any_side _ h1
    | inr h1 => exact exists_wallet_of_any_side _ h1
  obtain ⟨w, hmem, hp⟩ := hex
  have hs : (db.wallets.find? (fun x => x.userId == uid)).isSome := by
    rw [List.find?_isSome]
    exact ⟨w, hmem, hp⟩
  obtain ⟨w0, hw0⟩ := Option.isSome_iff_exists.mp hs
  exact ⟨w0, hw0⟩

/-- C5.  For every reversal request by a user id that owns neither the source
wallet nor the destination wallet of the target transaction, the operation
always fails Forbidden and performs zero state changes (the error aborts the
operation before any write). -/
theorem reverse_forbidden_for_nonparticipant (db : DB) (uid tid : String)
    (txn : Transaction)
    (ht : findTransactionById db tid = some txn)
    (hown : reversalIsOwner db txn uid = false) :
    reverseTransaction uid tid db =
      .error (.forbidden "Você não tem permissão para reverter esta transação") := by
  simp [reverseTransaction, ht, hown]

/-- C5 witness: Eve (`u3`), who owns neither wallet of transfer `t1`, is
refused on the concrete state `dbGuardCX`. -/
theorem reverse_forbidden_for_nonparticipant_witness :
    reverseTransaction "u3" "t1" dbGuardCX =
      .error (.forbidden "Você não tem permissão para reverter esta transação") :=
  reverse_forbidden_for_nonparticipant dbGuardCX "u3" "t1"
    { id := "t1", type := TxType.TRANSFER, amount := 10,
      status := TxStatus.REVERSED, description := "Transferência",
      fromWalletId := some "w1", toWalletId := some "w2",
      reversedTransactionId := none, createdAt := 1, processedAt := some 1 }
    (by rfl) (by rfl)

/-- C4 (amended).  For every reversal attempt by an actor owning the source
or destination wallet: if the target's status is already REVERSED it always
fails AlreadyReversed with no state change, and if the target is a
REVERSAL-type transaction whose status is not REVERSED it always fails
NotReversible.  (Attempts by non-owners fail Forbidden first, and a REVERSED
REVERSAL fails AlreadyReversed, because the ownership and status checks
precede the type check.) -/
theorem reverse_repetition_guards_for_owner (db : DB) (uid tid : String)
    (txn : Transaction)
    (ht : findTransactionById db tid = some txn)
    (hown : reversalIsOwner db txn uid = true) :
    (txn.status = TxStatus.REVERSED →
      reverseTransaction uid tid db =
        .error (.badRequest "Esta transação já foi revertida")) ∧
    (¬ txn.status = TxStatus.REVERSED → txn.type = TxType.REVERSAL →
      reverseTransaction uid tid db =
        .error (.badRequest "Reversões não podem ser revertidas")) := by
  constructor
  · intro hs
    simp [reverseTransaction, ht, hown, hs]
  · intro hs hty
    simp [reverseTransaction, ht, hown, hs, hty]

/-- C4 witness: on `dbGuardCX`, the owner Alice (`u1`) is refused with
AlreadyReversed on the REVERSED transfer `t1` and with NotReversible on the
COMPLETED reversal `t2`. -/
theorem reverse_repetition_guards_for_owner_witness :
    reverseTransaction "u1" "t1" dbGuardCX =
      .error (.badRequest "Esta transação já foi revertida") ∧
    reverseTransaction "u1" "t2" dbGuardCX =
      .error (.badRequest "Reversões não podem ser revertidas") :=
  ⟨(reverse_repetition_guards_for_owner dbGuardCX "u1" "t1"
      { id := "t1", type := TxType.TRANSFER, amount := 10,
        status := TxStatus.REVERSED, description := "Transferência",
        fromWalletId := some "w1", toWalletId := some "w2",
        reversedTransactionId := none, createdAt := 1, processedAt := some 1 }
      (by rfl) (by rfl)).1 rfl,
   (reverse_repetition_guards_for_owner dbGuardCX "u1" "t2"
      { id := "t2", type := TxType.REVERSAL, amount := 10,
        status := TxStatus.COMPLETED, description := "Estorno: Transferência",
        fromWalletId := some "w2", toWalletId := some "w1",
        reversedTransactionId := some "t1", createdAt := 2, processedAt := some 2 }
      (by rfl) (by rfl)).2 (by decide) rfl⟩

/-- C4 counterexample: the claim's "always" fails on attempts by non-owners.
On `dbGuardCX`, `t1` has status REVERSED and `t2` has type REVERSAL, yet the
attempts by `u3` fail Forbidden, not AlreadyReversed / NotReversible. -/
theorem reverse_guard_order_counterexample :
    (findTransactionById dbGuardCX "t1").map (fun t => t.status) =
      some TxStatus.REVERSED ∧
    (findTransactionById dbGuardCX "t2").map (fun t => t.type) =
      some TxType.REVERSAL ∧
    reverseTransaction "u3" "t1" dbGuardCX =
      .error (.forbidden "Você não tem permissão para reverter esta transação") ∧
    reverseTransaction "u3" "t1" dbGuardCX ≠
      .error (.badRequest "Esta transação já foi revertida") ∧
    reverseTransaction "u3" "t2" dbGuardCX =
      .error (.forbidden "Você não tem permissão para reverter esta transação") ∧
    reverseTransaction "u3" "t2" dbGuardCX ≠
      .error (.badRequest "Reversões não podem ser revertidas") := by
  refine ⟨rfl, rfl, rfl, ?_, rfl, ?_⟩
  · intro h
    have h1 : Except.error (Err.forbidden "Você não tem permissão para reverter esta transação") =
        (Except.error (Err.badRequest "Esta transação já foi revertida") :
          Except Err (DB × ReversalResult)) :=
      ((rfl : reverseTransaction "u3" "t1" dbGuardCX =
        Except.error (Err.forbidden "Você não tem permissão para reverter esta transação"))).symm.trans h
    exact Err.noConfusion (Except.error.inj h1)
  · intro h
    have h2 : Except.error (Err.forbidden "Você não tem permissão para reverter esta transação") =
        (Except.error (Err.badRequest "Reversões não podem ser revertidas") :
          Except Err (DB × ReversalResult)) :=
      ((rfl : reverseTransaction "u3" "t2" dbGuardCX =
        Except.error (Err.forbidden "Você não tem permissão para reverter esta transação"))).symm.trans h
    exact Err.noConfusion (Except.error.inj h2)

/-- Shared success/failure analysis of `reverseTransaction` on a TRANSFER
whose status is not yet REVERSED: the only guards before the balance branch
are ownership, status and type, so the analysis applies to any such status. -/
theorem reverseTransaction_transfer_case (db : DB) (uid tid : String)
    (txn : Transaction) (fwid twid : String) (fromW toW : Wallet)
    (ht : findTransactionById db tid = some txn)
    (hown : reversalIsOwner db txn uid = true)
    (hst : ¬ txn.status = TxStatus.REVERSED)
    (hty : txn.type = TxType.TRANSFER)
    (hfrom : txn.fromWalletId = some fwid)
    (hto : txn.toWalletId = some twid)
    (hFW : findWalletById db fwid = some fromW)
    (hTW : findWalletById db twid = some toW)
    (hne : ¬ fwid = twid) :
    (toW.balance < txn.amount →
      reverseTransaction uid tid db =
        .error (.badRequest "Destinatário não tem saldo suficiente para reversão")) ∧
    (txn.amount ≤ toW.balance →
      ∃ db' res, reverseTransaction uid tid db = .ok (db', res) ∧
        findWalletById db' fwid =
          some { fromW with balance := fromW.balance + txn.amount } ∧
        findWalletById db' twid =
          some { toW with balance := toW.balance - txn.amount } ∧
        findTransactionById db' tid = some { txn with status := TxStatus.REVERSED } ∧
        res.reversalTransaction.type = TxType.REVERSAL ∧
        res.reversalTransaction.status = TxStatus.COMPLETED ∧
        res.reversalTransaction.fromWalletId = some twid ∧
        res.reversalTransaction.toWalletId = some fwid ∧
        res.reversalTransaction.reversedTransactionId = some txn.id ∧
        res.reversalTransaction.amount = txn.amount ∧
        res.reversalTransaction ∈ db'.transactions ∧
        res.message = "Transação revertida com sucesso" ∧
        ∃ w', findWalletByUserId db' uid = some w' ∧ res.newBalance = w'.balance) := by
  have hFWne : (fromW.id == twid) = false := by
    rw [id_of_findWalletById hFW]
    exact beq_eq_false_iff_ne.mpr hne
  have hTWne : (toW.id == fwid) = false := by
    rw [id_of_findWalletById hTW]
    exact beq_eq_false_iff_ne.mpr (Ne.symm hne)
  constructor
  · intro hlt
    simp [reverseTransaction, reverseBalances, ht, hown, hst, hty, hfrom, hto, hTW, hlt]
  · intro hge
    have hlt' : ¬ toW.balance < txn.amount := not_lt.mpr hge
    obtain ⟨w0, hw0⟩ := exists_wallet_of_reversalIsOwner hown
    simp only [reverseTransaction, reverseBalances, updateWalletBalance,
      updateTransactionStatus, findWalletById_mapWalletBalance,
      findTransactionById_mapWalletBalance, findTransactionById_mapTransactionStatus,
      findWalletByUserId_createTransaction, findWalletByUserId_mapTransactionStatus,
      findWalletByUserId_mapWalletBalance,
      ht, hown, hst, hty, hfrom, hto, hFW, hTW, hFWne, hTWne, hlt', hw0,
      Option.map_some', Bool.not_true, Bool.false_eq_true, if_false, ite_false,
      beq_self_eq_true, ite_true, if_true, reduceCtorEq, reduceIte]
    refine ⟨_, _, rfl, ?_, ?_, ?_, rfl, rfl, rfl, rfl, rfl, rfl, ?_, rfl, ?_⟩
    · rw [findWalletById_createTransaction, findWalletById_mapTransactionStatus,
        findWalletById_mapWalletBalance, findWalletById_mapWalletBalance, hFW]
      simp [id_of_findWalletById hFW, hFWne, hne]
    · rw [findWalletById_createTransaction, findWalletById_mapTransactionStatus,
        findWalletById_mapWalletBalance, findWalletById_mapWalletBalance, hTW]
      simp [id_of_findWalletById hTW, hTWne, Ne.symm hne]
    · apply findTransactionById_createTransaction_of_found
      rw [findTransactionById_mapTransactionStatus,
        findTransactionById_mapWalletBalance, findTransactionById_mapWalletBalance, ht]
      simp [id_of_findTransactionById ht, hty, hfrom, hto]
    · exact createTransaction_mem _ _
    · rw [findWalletByUserId_createTransaction, findWalletByUserId_mapTransactionStatus,
        findWalletByUserId_mapWalletBalance, findWalletByUserId_mapWalletBalance, hw0]
      exact ⟨_, rfl, rfl⟩

/-- Shared analysis of `reverseTransaction` on a DEPOSIT whose status is not
yet REVERSED: the destination wallet is decremented with no sufficiency
check, and a linked REVERSAL with source null and destination = the original
destination is created. -/
theorem reverseTransaction_deposit_case (db : DB) (uid tid : String)
    (txn : Transaction) (twid : String) (toW : Wallet)
    (ht : findTransactionById db tid = some txn)
    (hown : reversalIsOwner db txn uid = true)
    (hst : ¬ txn.status = TxStatus.REVERSED)
    (hty : txn.type = TxType.DEPOSIT)
    (hto : txn.toWalletId = some twid)
    (hTW : findWalletById db twid = some toW) :
    ∃ db' res, reverseTransaction uid tid db = .ok (db', res) ∧
      findWalletById db' twid =
        some { toW with balance := toW.balance - txn.amount } ∧
      findTransactionById db' tid = some { txn with status := TxStatus.REVERSED } ∧
      res.reversalTransaction.type = TxType.REVERSAL ∧
      res.reversalTransaction.status = TxStatus.COMPLETED ∧
      res.reversalTransaction.fromWalletId = none ∧
      res.reversalTransaction.toWalletId = some twid ∧
      res.reversalTransaction.reversedTransactionId = some txn.id ∧
      res.reversalTransaction.amount = txn.amount ∧
      res.reversalTransaction ∈ db'.transactions ∧
      res.message = "Transação revertida com sucesso" ∧
      ∃ w', findWalletByUserId db' uid = some w' ∧ res.newBalance = w'.balance := by
  obtain ⟨w0, hw0⟩ := exists_wallet_of_reversalIsOwner hown
  simp only [reverseTransaction, reverseBalances, updateWalletBalance,
    updateTransactionStatus, findWalletById_mapWalletBalance,
    findTransactionById_mapWalletBalance, findTransactionById_mapTransactionStatus,
    findWalletByUserId_createTransaction, findWalletByUserId_mapTransactionStatus,
    findWalletByUserId_mapWalletBalance,
    ht, hown, hst, hty, hto, hTW, hw0,
    Option.map_some', Bool.not_true, Bool.false_eq_true, if_false, ite_false,
    beq_self_eq_true, ite_true, if_true, reduceCtorEq, reduceIte]
  refine ⟨_, _, rfl, ?_, ?_, rfl, rfl, rfl, rfl, rfl, rfl, ?_, rfl, ?_⟩
  · rw [findWalletById_createTransaction, findWalletById_mapTransactionStatus,
      findWalletById_mapWalletBalance, hTW]
    simp [id_of_findWalletById hTW]
  · apply findTransactionById_createTransaction_of_found
    rw [findTransactionById_mapTransactionStatus,
      findTransactionById_mapWalletBalance, ht]
    simp [id_of_findTransactionById ht, hty, hto]
  · exact createTransaction_mem _ _
  · rw [findWalletByUserId_createTransaction, findWalletByUserId_mapTransactionStatus,
      findWalletByUserId_mapWalletBalance, hw0]
    exact ⟨_, rfl, rfl⟩

/-- C3.  For every reversal of a COMPLETED TRANSFER of amount A (requested by
an owner of either wallet): if the original destination wallet's current
balance is < A the operation fails insufficient-funds-for-reversal with no
state change (the atomic unit aborts on the error); otherwise the original
source wallet is incremented by A, the original destination wallet is
decremented by A, the original transaction's status becomes REVERSED, a new
COMPLETED REVERSAL transaction is created with source = original destination,
destination = original source and a back-reference to the original, and the
returned newBalance is the acting user's own wallet balance after the
reversal (whichever of the two wallets, or neither debited one, it is). -/
theorem reverse_transfer_spec (db : DB) (uid tid : String)
    (txn : Transaction) (fwid twid : String) (fromW toW : Wallet)
    (ht : findTransactionById db tid = some txn)
    (hown : reversalIsOwner db txn uid = true)
    (hst : txn.status = TxStatus.COMPLETED)
    (hty : txn.type = TxType.TRANSFER)
    (hfrom : txn.fromWalletId = some fwid)
    (hto : txn.toWalletId = some twid)
    (hFW : findWalletById db fwid = some fromW)
    (hTW : findWalletById db twid = some toW)
    (hne : ¬ fwid = twid) :
    (toW.balance < txn.amount →
      reverseTransaction uid tid db =
        .error (.badRequest "Destinatário não tem saldo suficiente para reversão")) ∧
    (txn.amount ≤ toW.balance →
      ∃ db' res, reverseTransaction uid tid db = .ok (db', res) ∧
        findWalletById db' fwid =
          some { fromW with balance := fromW.balance + txn.amount } ∧
        findWalletById db' twid =
          some { toW with balance := toW.balance - txn.amount } ∧
        findTransactionById db' tid = some { txn with status := TxStatus.REVERSED } ∧
        res.reversalTransaction.type = TxType.REVERSAL ∧
        res.reversalTransaction.status = TxStatus.COMPLETED ∧
        res.reversalTransaction.fromWalletId = some twid ∧
        res.reversalTransaction.toWalletId = some fwid ∧
        res.reversalTransaction.reversedTransactionId = some txn.id ∧
        res.reversalTransaction.amount = txn.amount ∧
        res.reversalTransaction ∈ db'.transactions ∧
        res.message = "Transação revertida com sucesso" ∧
        ∃ w', findWalletByUserId db' uid = some w' ∧ res.newBalance = w'.balance) :=
  reverseTransaction_transfer_case db uid tid txn fwid twid fromW toW
    ht hown (by rw [hst]; decide) hty hfrom hto hFW hTW hne

/-- C3 witness: Alice (`u1`), the original sender and hence the party whose
wallet is credited rather than debited, reverses the COMPLETED transfer `t1`
of 50 on `dbRevTransferW`; the destination holds 80 ≥ 50, w1 goes 130 → 180,
w2 goes 80 → 30, and the returned newBalance is Alice's own 180. -/
theorem reverse_transfer_spec_witness :
    ∃ db' res, reverseTransaction "u1" "t1" dbRevTransferW = .ok (db', res) ∧
      findWalletById db' "w1" =
        some { id := "w1", userId := "u1", balance := (130 : ℚ) + 50 } ∧
      findWalletById db' "w2" =
        some { id := "w2", userId := "u2", balance := (80 : ℚ) - 50 } ∧
      findTransactionById db' "t1" =
        some { id := "t1", type := TxType.TRANSFER, amount := 50,
               status := TxStatus.REVERSED, description := "Transferência",
               fromWalletId := some "w1", toWalletId := some "w2",
               reversedTransactionId := none, createdAt := 1,
               processedAt := some 1 } ∧
      res.reversalTransaction.type = TxType.REVERSAL ∧
      res.reversalTransaction.status = TxStatus.COMPLETED ∧
      res.reversalTransaction.fromWalletId = some "w2" ∧
      res.reversalTransaction.toWalletId = some "w1" ∧
      res.reversalTransaction.reversedTransactionId = some "t1" ∧
      res.reversalTransaction.amount = 50 ∧
      res.reversalTransaction ∈ db'.transactions ∧
      res.message = "Transação revertida com sucesso" ∧
      ∃ w', findWalletByUserId db' "u1" = some w' ∧ res.newBalance = w'.balance :=
  (reverse_transfer_spec dbRevTransferW "u1" "t1"
    { id := "t1", type := TxType.TRANSFER, amount := 50,
      status := TxStatus.COMPLETED, description := "Transferência",
      fromWalletId := some "w1", toWalletId := some "w2",
      reversedTransactionId := none, createdAt := 1, processedAt := some 1 }
    "w1" "w2"
    { id := "w1", userId := "u1", balance := 130 }
    { id := "w2", userId := "u2", balance := 80 }
    (by rfl) (by rfl) (by rfl) (by rfl) (by rfl) (by rfl) (by rfl) (by rfl)
    (by decide)).2 (by norm_num)

/-- C6.  Reversing a COMPLETED DEPOSIT of amount A (by an owner) decrements
the destination wallet by A unconditionally, with no sufficiency check on
the wallet's current balance — there is no balance hypothesis here, so the
resulting balance may be negative — and a COMPLETED REVERSAL transaction
linked to the original is created with source = null and destination = the
original destination. -/
theorem reverse_deposit_unconditional (db : DB) (uid tid : String)
    (txn : Transaction) (twid : String) (toW : Wallet)
    (ht : findTransactionById db tid = some txn)
    (hown : reversalIsOwner db txn uid = true)
    (hst : txn.status = TxStatus.COMPLETED)
    (hty : txn.type = TxType.DEPOSIT)
    (hto : txn.toWalletId = some twid)
    (hTW : findWalletById db twid = some toW) :
    ∃ db' res, reverseTransaction uid tid db = .ok (db', res) ∧
      findWalletById db' twid =
        some { toW with balance := toW.balance - txn.amount } ∧
      findTransactionById db' tid = some { txn with status := TxStatus.REVERSED } ∧
      res.reversalTransaction.type = TxType.REVERSAL ∧
      res.reversalTransaction.status = TxStatus.COMPLETED ∧
      res.reversalTransaction.fromWalletId = none ∧
      res.reversalTransaction.toWalletId = some twid ∧
      res.reversalTransaction.reversedTransactionId = some txn.id ∧
      res.reversalTransaction.amount = txn.amount ∧
      res.reversalTransaction ∈ db'.transactions ∧
      res.message = "Transação revertida com sucesso" ∧
      ∃ w', findWalletByUserId db' uid = some w' ∧ res.newBalance = w'.balance :=
  reverseTransaction_deposit_case db uid tid txn twid toW
    ht hown (by rw [hst]; decide) hty hto hTW

/-- C6 witness: Alice reverses her COMPLETED deposit `t1` of 100.5 on
`dbRevDepositW` although her wallet holds only 50; the reversal succeeds and
the balance becomes 50 - 100.5 = -50.5 < 0. -/
theorem reverse_deposit_unconditional_witness :
    (∃ db' res, reverseTransaction "u1" "t1" dbRevDepositW = .ok (db', res) ∧
      findWalletById db' "w1" =
        some { id := "w1", userId := "u1", balance := (50 : ℚ) - 100.5 } ∧
      findTransactionById db' "t1" =
        some { id := "t1", type := TxType.DEPOSIT, amount := 100.5,
               status := TxStatus.REVERSED, description := "Depósito",
               fromWalletId := none, toWalletId := some "w1",
               reversedTransactionId := none, createdAt := 1,
               processedAt := some 1 } ∧
      res.reversalTransaction.type = TxType.REVERSAL ∧
      res.reversalTransaction.status = TxStatus.COMPLETED ∧
      res.reversalTransaction.fromWalletId = none ∧
      res.reversalTransaction.toWalletId = some "w1" ∧
      res.reversalTransaction.reversedTransactionId = some "t1" ∧
      res.reversalTransaction.amount = 100.5 ∧
      res.reversalTransaction ∈ db'.transactions ∧
      res.message = "Transação revertida com sucesso" ∧
      ∃ w', findWalletByUserId db' "u1" = some w' ∧ res.newBalance = w'.balance) ∧
    (50 : ℚ) - 100.5 < 0 :=
  ⟨reverse_deposit_unconditional dbRevDepositW "u1" "t1"
    { id := "t1", type := TxType.DEPOSIT, amount := 100.5,
      status := TxStatus.COMPLETED, description := "Depósito",
      fromWalletId := none, toWalletId := some "w1",
      reversedTransactionId := none, createdAt := 1, processedAt := some 1 }
    "w1"
    { id := "w1", userId := "u1", balance := 50 }
    (by rfl) (by rfl) (by rfl) (by rfl) (by rfl) (by rfl), by norm_num⟩

/-- C10.  `reverseTransaction` never requires the target's status to be
COMPLETED — its only status/type guards are status ≠ REVERSED and
type ≠ REVERSAL — so for every authorized DEPOSIT or TRANSFER transaction
whose status is PENDING or FAILED the reversal proceeds exactly as for a
COMPLETED one: wallet balances are mutated by the transaction's amount and
the status transitions directly from PENDING or FAILED to REVERSED. -/
theorem reverse_ignores_completed_status (db : DB) (uid tid : String)
    (txn : Transaction)
    (ht : findTransactionById db tid = some txn)
    (hown : reversalIsOwner db txn uid = true)
    (hstPF : txn.status = TxStatus.PENDING ∨ txn.status = TxStatus.FAILED) :
    (∀ twid toW, txn.type = TxType.DEPOSIT → txn.toWalletId = some twid →
      findWalletById db twid = some toW →
      ∃ db' res, reverseTransaction uid tid db = .ok (db', res) ∧
        findWalletById db' twid =
          some { toW with balance := toW.balance - txn.amount } ∧
        findTransactionById db' tid =
          some { txn with status := TxStatus.REVERSED }) ∧
    (∀ fwid twid fromW toW, txn.type = TxType.TRANSFER →
      txn.fromWalletId = some fwid → txn.toWalletId = some twid →
      findWalletById db fwid = some fromW → findWalletById db twid = some toW →
      ¬ fwid = twid → txn.amount ≤ toW.balance →
      ∃ db' res, reverseTransaction uid tid db = .ok (db', res) ∧
        findWalletById db' fwid =
          some { fromW with balance := fromW.balance + txn.amount } ∧
        findWalletById db' twid =
          some { toW with balance := toW.balance - txn.amount } ∧
        findTransactionById db' tid =
          some { txn with status := TxStatus.REVERSED }) := by
  have hst : ¬ txn.status = TxStatus.REVERSED := by
    rcases hstPF with h | h <;> rw [h] <;> decide
  constructor
  · intro twid toW hty hto hTW
    obtain ⟨db', res, hrun, hbal, htx, _⟩ :=
      reverseTransaction_deposit_case db uid tid txn twid toW ht hown hst hty hto hTW
    exact ⟨db', res, hrun, hbal, htx⟩
  · intro fwid twid fromW toW hty hfrom hto hFW hTW hne hge
    obtain ⟨db', res, hrun, h1, h2, h3, _⟩ :=
      (reverseTransaction_transfer_case db uid tid txn fwid twid fromW toW
        ht hown hst hty hfrom hto hFW hTW hne).2 hge
    exact ⟨db', res, hrun, h1, h2, h3⟩

/-- C10 witness: on `dbPendW`, Alice reverses the PENDING deposit `t1`
(w1 goes 80 → 50 and `t1` becomes REVERSED) and the FAILED transfer `t2`
(w1 +10, w2 -10, `t2` becomes REVERSED). -/
theorem reverse_ignores_completed_status_witness :
    (∃ db' res, reverseTransaction "u1" "t1" dbPendW = .ok (db', res) ∧
      findWalletById db' "w1" =
        some { id := "w1", userId := "u1", balance := (80 : ℚ) - 30 } ∧
      findTransactionById db' "t1" =
        some { id := "t1", type := TxType.DEPOSIT, amount := 30,
               status := TxStatus.REVERSED, description := "Depósito",
               fromWalletId := none, toWalletId := some "w1",
               reversedTransactionId := none, createdAt := 1,
               processedAt := none }) ∧
    (∃ db' res, reverseTransaction "u1" "t2" dbPendW = .ok (db', res) ∧
      findWalletById db' "w1" =
        some { id := "w1", userId := "u1", balance := (80 : ℚ) + 10 } ∧
      findWalletById db' "w2" =
        some { id := "w2", userId := "u2", balance := (60 : ℚ) - 10 } ∧
      findTransactionById db' "t2" =
        some { id := "t2", type := TxType.TRANSFER, amount := 10,
               status := TxStatus.REVERSED, description := "Transferência",
               fromWalletId := some "w1", toWalletId := some "w2",
               reversedTransactionId := none, createdAt := 2,
               processedAt := none }) :=
  ⟨(reverse_ignores_completed_status dbPendW "u1" "t1"
      { id := "t1", type := TxType.DEPOSIT, amount := 30,
        status := TxStatus.PENDING, description := "Depósito",
        fromWalletId := none, toWalletId := some "w1",
        reversedTransactionId := none, createdAt := 1, processedAt := none }
      (by rfl) (by rfl) (Or.inl rfl)).1 "w1"
      { id := "w1", userId := "u1", balance := 80 } rfl rfl (by rfl),
   (reverse_ignores_completed_status dbPendW "u1" "t2"
      { id := "t2", type := TxType.TRANSFER, amount := 10,
        status := TxStatus.FAILED, description := "Transferência",
        fromWalletId := some "w1", toWalletId := some "w2",
        reversedTransactionId := none, createdAt := 2, processedAt := none }
      (by rfl) (by rfl) (Or.inr rfl)).2 "w1" "w2"
      { id := "w1", userId := "u1", balance := 80 }
      { id := "w2", userId := "u2", balance := 60 }
      rfl rfl rfl (by rfl) (by rfl) (by decide) (by norm_num)⟩

/-- C7 (amended).  Inside the transfer's atomic unit the sender's wallet is
re-fetched and checked (NotFound when absent), but the recipient's wallet,
though re-fetched, is never null-checked: when it is absent the atomic unit
still validates the sender's balance and then either fails InsufficientFunds
(balance short) or dereferences the missing wallet's id, failing with a
runtime TypeError — never NotFound for the recipient.  Either error aborts
the atomic unit with no committed writes. -/
theorem transferTx_missing_recipient_behavior (db : DB) (uid : String)
    (toUser : User) (amount : ℚ) (d : Option String) (fromW : Wallet)
    (hfw : findWalletByUserId db uid = some fromW)
    (htw : findWalletByUserId db toUser.id = none) :
    (amount ≤ fromW.balance →
      transferTx uid toUser amount d db =
        .error (.typeError "Cannot read properties of null (reading id)")) ∧
    (fromW.balance < amount →
      transferTx uid toUser amount d db =
        .error (.badRequest
          ("Saldo insuficiente. Disponível: R$ " ++ toFixed2 fromW.balance))) := by
  constructor
  · intro hge
    have hlt' : ¬ fromW.balance < amount := not_lt.mpr hge
    have hupd := updateWalletBalance_eq_ok
      (fun _ => fromW.balance - amount) (mem_of_findWalletByUserId hfw) rfl
    simp only [transferTx, hfw, htw, hlt', ite_false, if_false, hupd]
  · intro hlt
    simp only [transferTx, hfw]
    rw [if_pos hlt]

/-- C7 witness: on `dbNoRecipientW` (recipient `u2` has no wallet row) the
atomic unit fails with the TypeError when Alice's balance of 100 covers the
amount 50, and with InsufficientFunds for an amount of 500. -/
theorem transferTx_missing_recipient_behavior_witness :
    transferTx "u1" { id := "u2", cpf := "15350946056", name := "Bob" } 50 none
      dbNoRecipientW =
      .error (.typeError "Cannot read properties of null (reading id)") ∧
    transferTx "u1" { id := "u2", cpf := "15350946056", name := "Bob" } 500 none
      dbNoRecipientW =
      .error (.badRequest ("Saldo insuficiente. Disponível: R$ " ++ toFixed2 100)) :=
  ⟨(transferTx_missing_recipient_behavior dbNoRecipientW "u1"
      { id := "u2", cpf := "15350946056", name := "Bob" } 50 none
      { id := "w1", userId := "u1", balance := 100 } (by rfl) (by rfl)).1
      (by norm_num),
   (transferTx_missing_recipient_behavior dbNoRecipientW "u1"
      { id := "u2", cpf := "15350946056", name := "Bob" } 500 none
      { id := "w1", userId := "u1", balance := 100 } (by rfl) (by rfl)).2
      (by norm_num)⟩

/-- C7 counterexample: the claim says the atomic unit fails NotFound whenever
the recipient's wallet is absent and never fails with any other error; on
`dbNoRecipientW` (recipient wallet lookup returns none, sender balance
sufficient) it fails with the runtime TypeError instead, which is not a
NotFound error. -/
theorem transferTx_missing_recipient_counterexample :
    findWalletByUserId dbNoRecipientW "u2" = none ∧
    transferTx "u1" { id := "u2", cpf := "15350946056", name := "Bob" } 50 none
      dbNoRecipientW =
      .error (.typeError "Cannot read properties of null (reading id)") ∧
    transferTx "u1" { id := "u2", cpf := "15350946056", name := "Bob" } 50 none
      dbNoRecipientW ≠
      .error (.notFound "Carteira não encontrada") := by
  refine ⟨rfl, rfl, ?_⟩
  intro h
  have h1 : Except.error (Err.typeError "Cannot read properties of null (reading id)") =
      (Except.error (Err.notFound "Carteira não encontrada") :
        Except Err (DB × TransferResult)) :=
    ((rfl : transferTx "u1" { id := "u2", cpf := "15350946056", name := "Bob" } 50 none
      dbNoRecipientW =
      Except.error (Err.typeError "Cannot read properties of null (reading id)"))).symm.trans h
  exact Err.noConfusion (Except.error.inj h1)

/-- A formatted entry's direction is "received" exactly when the queried
wallet is the transaction's destination. -/
theorem formatHistoryEntry_direction_received (db : DB) (wid : String)
    (t : Transaction) :
    (formatHistoryEntry db wid t).direction = "received" ↔
      t.toWalletId = some wid := by
  cases hcond : (t.toWalletId == some wid)
  · have hne := beq_eq_false_iff_ne.mp hcond
    simp [formatHistoryEntry, hcond, hne]
  · have heq : t.toWalletId = some wid := by
      have := of_decide_eq_true (by simpa using hcond)
      exact this
    simp [formatHistoryEntry, hcond, heq]

/-- A formatted entry's direction is "sent" exactly when the queried wallet
is not the transaction's destination. -/
theorem formatHistoryEntry_direction_sent (db : DB) (wid : String)
    (t : Transaction) :
    (formatHistoryEntry db wid t).direction = "sent" ↔
      ¬ t.toWalletId = some wid := by
  cases hcond : (t.toWalletId == some wid)
  · have hne := beq_eq_false_iff_ne.mp hcond
    simp [formatHistoryEntry, hcond, hne]
  · have heq : t.toWalletId = some wid := by
      have := of_decide_eq_true (by simpa using hcond)
      exact this
    simp [formatHistoryEntry, hcond, heq]

/-- A formatted entry carries an `otherParty` object exactly when the
transaction is of TRANSFER type. -/
theorem formatHistoryEntry_otherParty_isSome (db : DB) (wid : String)
    (t : Transaction) :
    (formatHistoryEntry db wid t).otherParty.isSome = true ↔
      t.type = TxType.TRANSFER := by
  by_cases hty : t.type = TxType.TRANSFER <;> simp [formatHistoryEntry, hty]

/-- C8.  `getHistory(userId)` returns the transactions in which the user's
wallet is source or destination (a permutation of the formatted filter of
the table — so nothing else, nothing missing), ordered by creation time
descending (most recent first); each entry's direction is "received" exactly
when the wallet is the transaction's destination and "sent" otherwise; the
counterparty object is populated exactly for TRANSFER-type entries and is
null for DEPOSIT and REVERSAL entries. -/
theorem getHistory_spec (db : DB) (uid : String) (w : Wallet)
    (hw : findWalletByUserId db uid = some w) :
    ∃ entries, getHistory uid db = .ok entries ∧
      entries.Pairwise (fun a b => b.createdAt ≤ a.createdAt) ∧
      List.Perm entries
        ((db.transactions.filter (txInvolvesWallet w.id)).map
          (formatHistoryEntry db w.id)) ∧
      ∀ e ∈ entries, ∃ t, t ∈ db.transactions ∧ txInvolvesWallet w.id t = true ∧
        e = formatHistoryEntry db w.id t ∧
        (e.direction = "received" ↔ t.toWalletId = some w.id) ∧
        (e.direction = "sent" ↔ ¬ t.toWalletId = some w.id) ∧
        (e.otherParty.isSome = true ↔ t.type = TxType.TRANSFER) := by
  refine ⟨((db.transactions.filter (txInvolvesWallet w.id)).mergeSort
      (fun a b => decide (b.createdAt ≤ a.createdAt))).map
        (formatHistoryEntry db w.id), ?_, ?_, ?_, ?_⟩
  · simp only [getHistory, hw]
  · have htrans : ∀ (a b c : Transaction),
        decide (b.createdAt ≤ a.createdAt) = true →
        decide (c.createdAt ≤ b.createdAt) = true →
        decide (c.createdAt ≤ a.createdAt) = true := by
      intro a b c h1 h2
      simp only [decide_eq_true_eq] at *
      omega
    have htotal : ∀ (a b : Transaction),
        (decide (b.createdAt ≤ a.createdAt) || decide (a.createdAt ≤ b.createdAt)) = true := by
      intro a b
      simp only [Bool.or_eq_true, decide_eq_true_eq]
      omega
    have hs := List.sorted_mergeSort htrans htotal
      (db.transactions.filter (txInvolvesWallet w.id))
    rw [List.pairwise_map]
    exact List.Pairwise.imp (fun hab => of_decide_eq_true hab) hs
  · exact List.Perm.map _ (List.mergeSort_perm _ _)
  · intro e he
    obtain ⟨t, htmem, hte⟩ := List.mem_map.mp he
    have ht2 : t ∈ db.transactions.filter (txInvolvesWallet w.id) :=
      (List.mergeSort_perm _ _).mem_iff.mp htmem
    have ht3 := List.mem_filter.mp ht2
    exact ⟨t, ht3.1, ht3.2, hte.symm, hte ▸ formatHistoryEntry_direction_received db w.id t,
      hte ▸ formatHistoryEntry_direction_sent db w.id t,
      hte ▸ formatHistoryEntry_otherParty_isSome db w.id t⟩

/-- C8 witness: Alice's history on `dbHistW`. -/
theorem getHistory_spec_witness :
    ∃ entries, getHistory "u1" dbHistW = .ok entries ∧
      entries.Pairwise (fun a b => b.createdAt ≤ a.createdAt) ∧
      List.Perm entries
        ((dbHistW.transactions.filter (txInvolvesWallet "w1")).map
          (formatHistoryEntry dbHistW "w1")) ∧
      ∀ e ∈ entries, ∃ t, t ∈ dbHistW.transactions ∧
        txInvolvesWallet "w1" t = true ∧
        e = formatHistoryEntry dbHistW "w1" t ∧
        (e.direction = "received" ↔ t.toWalletId = some "w1") ∧
        (e.direction = "sent" ↔ ¬ t.toWalletId = some "w1") ∧
        (e.otherParty.isSome = true ↔ t.type = TxType.TRANSFER) :=
  getHistory_spec dbHistW "u1" { id := "w1", userId := "u1", balance := 130 }
    (by rfl)

/-- C9.  Exact 2-decimal arithmetic demands that depositing 0.20 onto a
balance of 0.10 yield exactly 0.30 (as the exact-rational embedding does),
yet 3/10 is not a dyadic rational — no value of the form m / 2^e, and hence
no IEEE-754 binary floating-point number, equals it.  The service performs
this very arithmetic on JavaScript numbers (`wallet.balance.toNumber() +
amount`), so the computed sum necessarily carries a floating-point rounding
error, contradicting the claim (and the repository's own "Decimal para
valores monetários (precisão)" documentation). -/
theorem deposit_exactness_needs_nondyadic :
    (∃ db' res, deposit "u1" (0.2 : ℚ) none dbDecimalW = .ok (db', res) ∧
      res.newBalance = (3 / 10 : ℚ)) ∧
    ¬ ∃ (m : ℤ) (e : ℕ), (3 / 10 : ℚ) = (m : ℚ) / 2 ^ e := by
  constructor
  · exact ⟨_, _, rfl, by norm_num [deposit, updateWalletBalance, findWalletByUserId,
      findWalletById, dbDecimalW]⟩
  · rintro ⟨m, e, h⟩
    have h2 : ((2 : ℚ) ^ e) ≠ 0 := by positivity
    have h' : (3 : ℚ) * 2 ^ e = m * 10 := by
      field_simp at h
      linarith
    have h'' : (3 : ℤ) * 2 ^ e = m * 10 := by exact_mod_cast h'
    have h5 : (5 : ℤ) ∣ 3 * 2 ^ e := ⟨2 * m, by linarith⟩
    have hp : Prime (5 : ℤ) := by norm_num
    rcases hp.dvd_mul.mp h5 with h3 | hpow
    · omega
    · have h52 := hp.dvd_of_dvd_pow hpow
      omega

end CarteiraDigital
